import Mathlib

/-!
Shallow embedding of `homeassistant/components/jewish_calendar/sensor.py`.

Modelling conventions:
* Timestamps are `Int` (e.g. seconds since an epoch); a civil date is an
  `Int` day index obtained by flooring division by 86400 (`now.date()`).
  `dt_util.as_local` only changes the timezone presentation of an instant,
  never the instant itself, so it is the identity here.
* `HDate` objects of the external `hdate` library are handles carrying the
  civil day index and the construction flags; `next_day` / `previous_day`
  move the civil day index by one, exactly as the library does.  All other
  reads from `HDate` objects (hebrew date fields, parasha, holidays, omer,
  daf yomi, upcoming-shabbat navigation) are external-collaborator
  computations, modelled as an abstract function record `CalendarLib`.
* `Zmanim(date, location, offsets, hebrew)` is modelled by the record of its
  constructor arguments (`Zmanim`), and the library's outputs
  (`candle_lighting`, `havdalah`, the `.zmanim` dict) by an abstract function
  record `ZmanimLib`.  The `Zmanim` constructor accepts a datetime and
  truncates it to its civil date, so the call site
  `make_zmanim(dt_util.now())` is embedded as building a table for
  `civilDate` of that (second) clock reading.
* An update cycle reads the wall clock twice: once at the top of
  `async_update` (`now`) and once in `JewishCalendarTimeSensor.get_state`
  for the plain daily-time branch (`now2`).  Both readings are explicit
  parameters.
* Python exceptions (the `times[key]` `KeyError` on a dict miss) are
  modelled by an outer `Option`: `none` = the call raises, `some v` = the
  call returns value `v` (itself optional, since Python `None` is a value).
-/

/-- `now.date()`: the civil day index containing instant `t`. -/
def civilDate (t : Int) : Int := Int.fdiv t 86400

/-- Per-entry configuration read in `JewishCalendarSensor.__init__`. -/
structure Config where
  location : Nat
  hebrew : Bool
  candle_lighting_offset : Int
  havdalah_offset : Int
  diaspora : Bool
deriving DecidableEq, Repr

/-- Handle for an `hdate.HDate` object: its civil (gregorian) day index and
the flags it was constructed with. -/
structure HDate where
  gdate : Int
  diaspora : Bool
  hebrew : Bool
deriving DecidableEq, Repr

/-- `HDate.next_day`: same flags, civil date advanced by one day. -/
def HDate.next_day (d : HDate) : HDate := { d with gdate := d.gdate + 1 }

/-- `HDate.previous_day`: same flags, civil date moved back one day. -/
def HDate.previous_day (d : HDate) : HDate := { d with gdate := d.gdate - 1 }

/-- One entry of `htables.MONTHS`. -/
structure MonthRec where
  hebrew : String
  english : String
deriving DecidableEq, Repr

/-- One entry of `htables.PARASHAOT`. -/
structure ParashaRec where
  hebrew : String
  english : String
deriving DecidableEq, Repr

/-- The `.hebrew` component of a holiday description (has a `.long` form). -/
structure HolidayDescHebrew where
  long : String
deriving DecidableEq, Repr

/-- The `description` field of an `htables.HOLIDAYS` entry. -/
structure HolidayDesc where
  hebrew : HolidayDescHebrew
  english : String
deriving DecidableEq, Repr

/-- One entry of `htables.HOLIDAYS`. -/
structure HolidayRec where
  description : HolidayDesc
deriving DecidableEq, Repr

/-- The `.month` component of an `hdate.HebrewDate` (an enum; `.value` is its
1-based ordinal used to index `htables.MONTHS`). -/
structure HebrewMonth where
  value : Nat
deriving DecidableEq, Repr

/-- The `hdate.HebrewDate` triple read via `after_shkia_date.hdate`. -/
structure HebrewDate where
  year : Int
  month : HebrewMonth
  day : Int
deriving DecidableEq, Repr

/-- The span object returned by `HDate.upcoming_shabbat_or_yom_tov`. -/
structure UpcomingSpan where
  first_day : HDate
  last_day : HDate
deriving DecidableEq, Repr

/-- Read operations of the external `hdate` calendar library, together with
its static tables.  The library guarantees that `(hdate d).month.value` is a
1-based index into `MONTHS`. -/
structure CalendarLib where
  hdate : HDate → HebrewDate
  hebrew_date : HDate → String
  parasha : HDate → String
  upcoming_shabbat : HDate → HDate
  upcoming_shabbat_or_yom_tov : HDate → UpcomingSpan
  holiday_name : HDate → String
  holiday_type_name : HDate → String
  holiday_type_value : HDate → Int
  holiday_description : HDate → String
  omer_day : HDate → Int
  daf_yomi : HDate → String
  MONTHS : List MonthRec
  PARASHAOT : List ParashaRec
  HOLIDAYS : List HolidayRec

/-- The argument record of a constructed `hdate.zmanim.Zmanim` object (the
civil date it is built for, plus location, offsets and language). -/
structure Zmanim where
  date : Int
  location : Nat
  candle_lighting_offset : Int
  havdalah_offset : Int
  hebrew : Bool
deriving DecidableEq, Repr

/-- `JewishCalendarSensor.make_zmanim`: build a `Zmanim` request from the
stored configuration for a given civil date. -/
def make_zmanim (cfg : Config) (date : Int) : Zmanim :=
  { date := date
    location := cfg.location
    candle_lighting_offset := cfg.candle_lighting_offset
    havdalah_offset := cfg.havdalah_offset
    hebrew := cfg.hebrew }

/-- Outputs of the external time-computation library for a `Zmanim` request:
optional candle-lighting and havdalah instants, and the `.zmanim` dict of
named daily times (an association list; a missing key raises `KeyError`). -/
structure ZmanimLib where
  candle_lighting : Zmanim → Option Int
  havdalah : Zmanim → Option Int
  zmanim : Zmanim → List (String × Int)

/-- A sensor value: Python strings, ints and datetimes that the derivation
branches return. -/
inductive Value where
  | str : String → Value
  | int : Int → Value
  | time : Int → Value
deriving DecidableEq, Repr

/-- Externally visible per-sensor state: `_attr_native_value`, `_attrs`
(extra state attributes) and `_attr_options`. -/
structure SensorState where
  native_value : Option Value
  attrs : List (String × Value)
  options : List String
deriving DecidableEq, Repr

/-- One entry of the static sensor catalog (`SensorEntityDescription`). -/
structure SensorEntityDescription where
  key : String
  name : String
  icon : String
  device_class : Option String := none
  translation_key : Option String := none
deriving DecidableEq, Repr

/-- The 5 info-sensor descriptors (`INFO_SENSORS`). -/
def INFO_SENSORS : List SensorEntityDescription :=
  [ { key := "date", name := "Date", icon := "mdi:star-david",
      translation_key := some "hebrew_date" },
    { key := "weekly_portion", name := "Parshat Hashavua",
      icon := "mdi:book-open-variant", device_class := some "enum" },
    { key := "holiday", name := "Holiday", icon := "mdi:calendar-star",
      device_class := some "enum" },
    { key := "omer_count", name := "Day of the Omer", icon := "mdi:counter" },
    { key := "daf_yomi", name := "Daf Yomi", icon := "mdi:book-open-variant" } ]

/-- The time-sensor descriptors (`TIME_SENSORS`). -/
def TIME_SENSORS : List SensorEntityDescription :=
  [ { key := "first_light", name := "Alot Hashachar",
      icon := "mdi:weather-sunset-up" },
    { key := "talit", name := "Talit and Tefillin", icon := "mdi:calendar-clock" },
    { key := "sunrise", name := "Hanetz Hachama", icon := "mdi:calendar-clock" },
    { key := "gra_end_shma", name := "Latest time for Shma Gr\"a",
      icon := "mdi:calendar-clock" },
    { key := "mga_end_shma", name := "Latest time for Shma MG\"A",
      icon := "mdi:calendar-clock" },
    { key := "gra_end_tfila", name := "Latest time for Tefilla Gr\"a",
      icon := "mdi:calendar-clock" },
    { key := "mga_end_tfila", name := "Latest time for Tefilla MG\"A",
      icon := "mdi:calendar-clock" },
    { key := "midday", name := "Chatzot Hayom", icon := "mdi:calendar-clock" },
    { key := "big_mincha", name := "Mincha Gedola", icon := "mdi:calendar-clock" },
    { key := "small_mincha", name := "Mincha Ketana", icon := "mdi:calendar-clock" },
    { key := "plag_mincha", name := "Plag Hamincha",
      icon := "mdi:weather-sunset-down" },
    { key := "sunset", name := "Shkia", icon := "mdi:weather-sunset" },
    { key := "first_stars", name := "T\'set Hakochavim", icon := "mdi:weather-night" },
    { key := "three_stars", name := "T\'set Hakochavim, 3 stars",
      icon := "mdi:weather-night" },
    { key := "upcoming_shabbat_candle_lighting",
      name := "Upcoming Shabbat Candle Lighting", icon := "mdi:candle" },
    { key := "upcoming_shabbat_havdalah", name := "Upcoming Shabbat Havdalah",
      icon := "mdi:weather-night" },
    { key := "upcoming_candle_lighting", name := "Upcoming Candle Lighting",
      icon := "mdi:candle" },
    { key := "upcoming_havdalah", name := "Upcoming Havdalah",
      icon := "mdi:weather-night" } ]

/-- The day-boundary resolution performed inside
`JewishCalendarSensor.async_update` once the sunset instant is known:
`daytime_date` (plain), `after_shkia_date` (post-sunset) and
`after_tzais_date` (post-nightfall), in that order.  The havdalah threshold
is read from a `Zmanim` table built for today; a Python `datetime` is always
truthy and `None` falsy, so `if today_times.havdalah and now > ...` is a
match on the optional havdalah instant. -/
def resolve (zlib : ZmanimLib) (cfg : Config) (now sunset : Int) :
    HDate × HDate × HDate :=
  let today := civilDate now
  let daytime_date : HDate :=
    { gdate := today, diaspora := cfg.diaspora, hebrew := cfg.hebrew }
  let today_times := make_zmanim cfg today
  let after_shkia_date :=
    if sunset < now then daytime_date.next_day else daytime_date
  let after_tzais_date :=
    match zlib.havdalah today_times with
    | some h => if h < now then daytime_date.next_day else daytime_date
    | none => daytime_date
  (daytime_date, after_shkia_date, after_tzais_date)

/-- `JewishCalendarSensor.get_state` (the info-sensor derivation).  It takes
the current `_attrs` / `_attr_options` instance state (Python mutates them in
place only in some branches) and returns the new value together with the new
attribute and options state. -/
def JewishCalendarSensor.get_state (clib : CalendarLib) (cfg : Config)
    (key : String) (attrs : List (String × Value)) (options : List String)
    (daytime_date after_shkia_date after_tzais_date : HDate) :
    Option Value × List (String × Value) × List String :=
  if key = "date" then
    let hd := clib.hdate after_shkia_date
    let month := clib.MONTHS.getD (hd.month.value - 1) { hebrew := "", english := "" }
    (some (Value.str (clib.hebrew_date after_shkia_date)),
     [("hebrew_year", Value.int hd.year),
      ("hebrew_month_name",
        Value.str (if cfg.hebrew then month.hebrew else month.english)),
      ("hebrew_day", Value.int hd.day)],
     options)
  else if key = "weekly_portion" then
    (some (Value.str (clib.parasha (clib.upcoming_shabbat after_tzais_date))),
     attrs,
     clib.PARASHAOT.map (fun p => if cfg.hebrew then p.hebrew else p.english))
  else if key = "holiday" then
    (some (Value.str (clib.holiday_description after_shkia_date)),
     [("id", Value.str (clib.holiday_name after_shkia_date)),
      ("type", Value.str (clib.holiday_type_name after_shkia_date)),
      ("type_id", Value.int (clib.holiday_type_value after_shkia_date))],
     clib.HOLIDAYS.map (fun h =>
       if cfg.hebrew then h.description.hebrew.long else h.description.english))
  else if key = "omer_count" then
    (some (Value.int (clib.omer_day after_shkia_date)), attrs, options)
  else if key = "daf_yomi" then
    (some (Value.str (clib.daf_yomi daytime_date)), attrs, options)
  else
    (none, attrs, options)

/-- `JewishCalendarTimeSensor.get_state`.  The fall-through branch builds a
`Zmanim` table from a *fresh* clock reading (`dt_util.now()`, here `now2`;
the `Zmanim` constructor truncates a datetime to its civil date) and indexes
the `.zmanim` dict with the sensor key; a missing key raises `KeyError`,
modelled by the outer `none`. -/
def JewishCalendarTimeSensor.get_state (zlib : ZmanimLib) (clib : CalendarLib)
    (cfg : Config) (key : String)
    (daytime_date after_shkia_date after_tzais_date : HDate)
    (now2 : Int) : Option (Option Value) :=
  if key = "upcoming_shabbat_candle_lighting" then
    some ((zlib.candle_lighting (make_zmanim cfg
      ((clib.upcoming_shabbat after_tzais_date).previous_day.gdate))).map Value.time)
  else if key = "upcoming_candle_lighting" then
    some ((zlib.candle_lighting (make_zmanim cfg
      ((clib.upcoming_shabbat_or_yom_tov
          after_tzais_date).first_day.previous_day.gdate))).map Value.time)
  else if key = "upcoming_shabbat_havdalah" then
    some ((zlib.havdalah (make_zmanim cfg
      ((clib.upcoming_shabbat after_tzais_date).gdate))).map Value.time)
  else if key = "upcoming_havdalah" then
    some ((zlib.havdalah (make_zmanim cfg
      ((clib.upcoming_shabbat_or_yom_tov after_tzais_date).last_day.gdate))).map
        Value.time)
  else
    match (zlib.zmanim (make_zmanim cfg (civilDate now2))).lookup key with
    | some t => some (some (Value.time t))
    | none => none

/-- Which of the two entity classes a sensor belongs to (info descriptors
instantiate `JewishCalendarSensor`, time descriptors
`JewishCalendarTimeSensor`; the subclass only overrides `get_state`). -/
inductive SensorClass where
  | info
  | time
deriving DecidableEq, Repr

/-- The host-side collaborator `get_astral_event_date` (sunset lookup for a
civil date; `none` when the solar event cannot be determined). -/
structure Host where
  get_astral_event_date : Int → Option Int

/-- `JewishCalendarSensor.async_update`, one update cycle of one sensor:
read the clock (`now`), look up today's sunset (abort, keeping the previous
state, when it is unavailable), resolve the three day interpretations, then
dispatch to the class's `get_state`.  For a time sensor the plain daily-time
branch reads the clock again (`now2`); if its dict lookup raises, the
assignment to `_attr_native_value` never happens and the state is kept. -/
def async_update (host : Host) (clib : CalendarLib) (zlib : ZmanimLib)
    (cfg : Config) (cls : SensorClass) (key : String) (st : SensorState)
    (now now2 : Int) : SensorState :=
  let today := civilDate now
  match host.get_astral_event_date today with
  | none => st
  | some sunset =>
    let r := resolve zlib cfg now sunset
    match cls with
    | SensorClass.info =>
      let out := JewishCalendarSensor.get_state clib cfg key st.attrs st.options
        r.1 r.2.1 r.2.2
      { native_value := out.1, attrs := out.2.1, options := out.2.2 }
    | SensorClass.time =>
      match JewishCalendarTimeSensor.get_state zlib clib cfg key
          r.1 r.2.1 r.2.2 now2 with
      | some v => { st with native_value := v }
      | none => st

/-- The spec's description of a plain daily-time sensor read: the table is
built for today, the civil date of the same `now` used for day-boundary
resolution, and the value is the entry named by the sensor's key (absent
entries modelled like the dict miss). -/
def spec_daily_time_value (zlib : ZmanimLib) (cfg : Config) (key : String)
    (now : Int) : Option (Option Value) :=
  match (zlib.zmanim (make_zmanim cfg (civilDate now))).lookup key with
  | some t => some (some (Value.time t))
  | none => none

/-! Concrete collaborator instances used to instantiate theorems. -/

/-- A concrete configuration (Jerusalem-style: not diaspora, English). -/
def cfgW : Config :=
  { location := 0, hebrew := false, candle_lighting_offset := 18,
    havdalah_offset := 42, diaspora := false }

/-- A concrete calendar library (all reads constant, navigation identity). -/
def clibC : CalendarLib :=
  { hdate := fun _ => { year := 5784, month := { value := 1 }, day := 1 }
    hebrew_date := fun _ => "1 Tishrei 5784"
    parasha := fun _ => "Bereshit"
    upcoming_shabbat := fun d => d
    upcoming_shabbat_or_yom_tov := fun d => { first_day := d, last_day := d }
    holiday_name := fun _ => ""
    holiday_type_name := fun _ => "UNKNOWN"
    holiday_type_value := fun _ => 0
    holiday_description := fun _ => ""
    omer_day := fun _ => 0
    daf_yomi := fun _ => "Bava Kamma 2"
    MONTHS := [{ hebrew := "Tishrei", english := "Tishrei" }]
    PARASHAOT := [{ hebrew := "Bereshit", english := "Bereshit" }]
    HOLIDAYS := [{ description :=
      { hebrew := { long := "Rosh Hashana" }, english := "Rosh Hashana" } }] }

/-- A concrete `HDate`. -/
def dC : HDate := { gdate := 0, diaspora := false, hebrew := false }

/-- A fresh sensor state as initialised in `__init__`. -/
def st0 : SensorState := { native_value := none, attrs := [], options := [] }

/-- Time library whose havdalah is the constant instant 70000. -/
def zlibW : ZmanimLib :=
  { candle_lighting := fun _ => none
    havdalah := fun _ => some 70000
    zmanim := fun _ => [] }

/-- Time library whose havdalah is the constant instant 100. -/
def zlibC2 : ZmanimLib :=
  { candle_lighting := fun _ => none
    havdalah := fun _ => some 100
    zmanim := fun _ => [] }

/-- Time library whose daily dict maps `sunrise` to the request's own civil
date, so tables built for different dates are distinguishable. -/
def zlibC5 : ZmanimLib :=
  { candle_lighting := fun _ => none
    havdalah := fun _ => none
    zmanim := fun z => [("sunrise", z.date)] }

/-- Time library with an empty daily dict. -/
def zlibEmpty : ZmanimLib :=
  { candle_lighting := fun _ => none
    havdalah := fun _ => none
    zmanim := fun _ => [] }

/-- Host whose sunset lookup always succeeds at instant 0. -/
def hostC : Host := { get_astral_event_date := fun _ => some 0 }

/-- Host whose sunset lookup always fails. -/
def hostNone : Host := { get_astral_event_date := fun _ => none }

/-- The plain component of `resolve`. -/
theorem resolve_plain (zlib : ZmanimLib) (cfg : Config) (now sunset : Int) :
    (resolve zlib cfg now sunset).1 =
      { gdate := civilDate now, diaspora := cfg.diaspora,
        hebrew := cfg.hebrew } := rfl

/-- The post-sunset component of `resolve`. -/
theorem resolve_after_shkia (zlib : ZmanimLib) (cfg : Config)
    (now sunset : Int) :
    (resolve zlib cfg now sunset).2.1 =
      if sunset < now then (resolve zlib cfg now sunset).1.next_day
      else (resolve zlib cfg now sunset).1 := rfl

/-- The post-nightfall component of `resolve` when havdalah is defined. -/
theorem resolve_after_tzais_some (zlib : ZmanimLib) (cfg : Config)
    (now sunset h : Int)
    (hv : zlib.havdalah (make_zmanim cfg (civilDate now)) = some h) :
    (resolve zlib cfg now sunset).2.2 =
      if h < now then (resolve zlib cfg now sunset).1.next_day
      else (resolve zlib cfg now sunset).1 := by
  simp only [resolve]
  rw [hv]

/-- The post-nightfall component of `resolve` when havdalah is undefined. -/
theorem resolve_after_tzais_none (zlib : ZmanimLib) (cfg : Config)
    (now sunset : Int)
    (hv : zlib.havdalah (make_zmanim cfg (civilDate now)) = none) :
    (resolve zlib cfg now sunset).2.2 = (resolve zlib cfg now sunset).1 := by
  simp only [resolve]
  rw [hv]

/-- C1: for every now, config, sunset instant and havdalah value, when
resolution succeeds, `after_shkia_date` equals `daytime_date` if
`now ≤ sunset` and `daytime_date.next_day` if `now > sunset`; and
`after_tzais_date` equals `daytime_date` if the day's havdalah is undefined
or `now ≤ havdalah`, and `daytime_date.next_day` if havdalah is defined and
`now > havdalah`. -/
theorem C1_day_boundary (zlib : ZmanimLib) (cfg : Config)
    (now sunset : Int) :
    ((now ≤ sunset →
        (resolve zlib cfg now sunset).2.1 = (resolve zlib cfg now sunset).1) ∧
     (sunset < now →
        (resolve zlib cfg now sunset).2.1 =
          (resolve zlib cfg now sunset).1.next_day)) ∧
    ((zlib.havdalah (make_zmanim cfg (civilDate now)) = none →
        (resolve zlib cfg now sunset).2.2 = (resolve zlib cfg now sunset).1) ∧
     ∀ h, zlib.havdalah (make_zmanim cfg (civilDate now)) = some h →
       ((now ≤ h →
          (resolve zlib cfg now sunset).2.2 = (resolve zlib cfg now sunset).1) ∧
        (h < now →
          (resolve zlib cfg now sunset).2.2 =
            (resolve zlib cfg now sunset).1.next_day))) := by
  refine ⟨⟨fun hle => ?_, fun hlt => ?_⟩, fun hnone => ?_,
    fun h hsome => ⟨fun hle => ?_, fun hlt => ?_⟩⟩
  · rw [resolve_after_shkia, if_neg (not_lt.mpr hle)]
  · rw [resolve_after_shkia, if_pos hlt]
  · rw [resolve_after_tzais_none _ _ _ _ hnone]
  · rw [resolve_after_tzais_some _ _ _ _ _ hsome, if_neg (not_lt.mpr hle)]
  · rw [resolve_after_tzais_some _ _ _ _ _ hsome, if_pos hlt]

/-- C1 witness: at `now = 10`, `sunset = 20`, havdalah `70000`, both
interpretations stay on the plain date. -/
theorem C1_witness :
    (resolve zlibW cfgW 10 20).2.1 = (resolve zlibW cfgW 10 20).1 ∧
    (resolve zlibW cfgW 10 20).2.2 = (resolve zlibW cfgW 10 20).1 :=
  ⟨(C1_day_boundary zlibW cfgW 10 20).1.1 (by decide),
   ((C1_day_boundary zlibW cfgW 10 20).2.2 70000 rfl).1 (by decide)⟩

/-- C2 counterexample: with sunset 50, havdalah 100 and `now = 75` (the
twilight window between sunset and nightfall), `after_tzais_date` stays on
the plain day while `after_shkia_date` has already advanced, so the claimed
chain afterNightfall ≥ afterSunset ≥ plain fails. -/
theorem C2_counterexample :
    ¬ ((resolve zlibC2 cfgW 75 50).2.2.gdate ≥
         (resolve zlibC2 cfgW 75 50).2.1.gdate ∧
       (resolve zlibC2 cfgW 75 50).2.1.gdate ≥
         (resolve zlibC2 cfgW 75 50).1.gdate) := by
  decide

/-- C2 (amended): both `after_shkia_date` and `after_tzais_date` are ≥ the
plain date; and whenever havdalah is defined and not earlier than sunset (as
the time library guarantees), `after_shkia_date` ≥ `after_tzais_date` —
i.e. the true chain is afterSunset ≥ afterNightfall ≥ plain. -/
theorem C2_monotonicity (zlib : ZmanimLib) (cfg : Config)
    (now sunset : Int) :
    ((resolve zlib cfg now sunset).2.1.gdate ≥
       (resolve zlib cfg now sunset).1.gdate ∧
     (resolve zlib cfg now sunset).2.2.gdate ≥
       (resolve zlib cfg now sunset).1.gdate) ∧
    (∀ h, zlib.havdalah (make_zmanim cfg (civilDate now)) = some h →
      sunset ≤ h →
      (resolve zlib cfg now sunset).2.1.gdate ≥
        (resolve zlib cfg now sunset).2.2.gdate) := by
  refine ⟨⟨?_, ?_⟩, fun h hsome hle => ?_⟩
  · rw [resolve_after_shkia, resolve_plain]
    split_ifs <;> simp [HDate.next_day]
  · cases hv : zlib.havdalah (make_zmanim cfg (civilDate now)) with
    | none => rw [resolve_after_tzais_none _ _ _ _ hv]
    | some h =>
      rw [resolve_after_tzais_some _ _ _ _ _ hv, resolve_plain]
      split_ifs <;> simp [HDate.next_day]
  · rw [resolve_after_shkia, resolve_after_tzais_some _ _ _ _ _ hsome,
      resolve_plain]
    split_ifs <;> simp [HDate.next_day] <;> omega

/-- C2 witness: at sunset 50, havdalah 100, `now = 75`, the amended chain
holds concretely. -/
theorem C2_witness :
    ((resolve zlibC2 cfgW 75 50).2.1.gdate ≥
       (resolve zlibC2 cfgW 75 50).1.gdate ∧
     (resolve zlibC2 cfgW 75 50).2.2.gdate ≥
       (resolve zlibC2 cfgW 75 50).1.gdate) ∧
    (resolve zlibC2 cfgW 75 50).2.1.gdate ≥
      (resolve zlibC2 cfgW 75 50).2.2.gdate :=
  ⟨(C2_monotonicity zlibC2 cfgW 75 50).1,
   (C2_monotonicity zlibC2 cfgW 75 50).2 100 rfl (by decide)⟩

/-- C3: for every resolved moment, `date` returns the Hebrew calendar date
of the post-sunset interpretation with `hebrew_year`, `hebrew_month_name`
and `hebrew_day` read from that same date; `weekly_portion` returns the
Torah portion of the post-nightfall date's upcoming Shabbat; `holiday`
returns the post-sunset holiday description with `id`, `type` and `type_id`
attributes; `omer_count` the post-sunset omer-day count; `daf_yomi` the
plain date's daf-yomi reference. -/
theorem C3_info_mapping (clib : CalendarLib) (cfg : Config)
    (attrs0 : List (String × Value)) (options0 : List String)
    (daytime after_shkia after_tzais : HDate) :
    JewishCalendarSensor.get_state clib cfg "date" attrs0 options0
        daytime after_shkia after_tzais =
      (some (Value.str (clib.hebrew_date after_shkia)),
       [("hebrew_year", Value.int (clib.hdate after_shkia).year),
        ("hebrew_month_name", Value.str
          (if cfg.hebrew then
            (clib.MONTHS.getD ((clib.hdate after_shkia).month.value - 1)
              { hebrew := "", english := "" }).hebrew
           else
            (clib.MONTHS.getD ((clib.hdate after_shkia).month.value - 1)
              { hebrew := "", english := "" }).english)),
        ("hebrew_day", Value.int (clib.hdate after_shkia).day)],
       options0) ∧
    JewishCalendarSensor.get_state clib cfg "weekly_portion" attrs0 options0
        daytime after_shkia after_tzais =
      (some (Value.str (clib.parasha (clib.upcoming_shabbat after_tzais))),
       attrs0,
       clib.PARASHAOT.map fun p => if cfg.hebrew then p.hebrew else p.english) ∧
    JewishCalendarSensor.get_state clib cfg "holiday" attrs0 options0
        daytime after_shkia after_tzais =
      (some (Value.str (clib.holiday_description after_shkia)),
       [("id", Value.str (clib.holiday_name after_shkia)),
        ("type", Value.str (clib.holiday_type_name after_shkia)),
        ("type_id", Value.int (clib.holiday_type_value after_shkia))],
       clib.HOLIDAYS.map fun h =>
         if cfg.hebrew then h.description.hebrew.long
         else h.description.english) ∧
    JewishCalendarSensor.get_state clib cfg "omer_count" attrs0 options0
        daytime after_shkia after_tzais =
      (some (Value.int (clib.omer_day after_shkia)), attrs0, options0) ∧
    JewishCalendarSensor.get_state clib cfg "daf_yomi" attrs0 options0
        daytime after_shkia after_tzais =
      (some (Value.str (clib.daf_yomi daytime)), attrs0, options0) :=
  ⟨rfl, rfl, rfl, rfl, rfl⟩

/-- C4: the four upcoming time sensors build their time tables by calendar
navigation from the post-nightfall date: candle lighting for the civil day
before the upcoming Shabbat (resp. before the first day of the upcoming
Shabbat-or-festival span), havdalah for the civil date of the upcoming
Shabbat (resp. of the last day of the span). -/
theorem C4_upcoming_request_dates (zlib : ZmanimLib) (clib : CalendarLib)
    (cfg : Config) (daytime after_shkia after_tzais : HDate) (now2 : Int) :
    JewishCalendarTimeSensor.get_state zlib clib cfg
        "upcoming_shabbat_candle_lighting" daytime after_shkia after_tzais
        now2 =
      some ((zlib.candle_lighting (make_zmanim cfg
        ((clib.upcoming_shabbat after_tzais).gdate - 1))).map Value.time) ∧
    JewishCalendarTimeSensor.get_state zlib clib cfg
        "upcoming_candle_lighting" daytime after_shkia after_tzais now2 =
      some ((zlib.candle_lighting (make_zmanim cfg
        ((clib.upcoming_shabbat_or_yom_tov
            after_tzais).first_day.gdate - 1))).map Value.time) ∧
    JewishCalendarTimeSensor.get_state zlib clib cfg
        "upcoming_shabbat_havdalah" daytime after_shkia after_tzais now2 =
      some ((zlib.havdalah (make_zmanim cfg
        ((clib.upcoming_shabbat after_tzais).gdate))).map Value.time) ∧
    JewishCalendarTimeSensor.get_state zlib clib cfg
        "upcoming_havdalah" daytime after_shkia after_tzais now2 =
      some ((zlib.havdalah (make_zmanim cfg
        ((clib.upcoming_shabbat_or_yom_tov
            after_tzais).last_day.gdate))).map Value.time) :=
  ⟨rfl, rfl, rfl, rfl⟩

/-- C5 counterexample: an update that straddles midnight.  The resolution
clock reading is 86399 (civil day 0) but the daily-time branch re-reads the
clock and gets 86400 (civil day 1), so the `sunrise` value comes from the
table of day 1, not from the table for the civil date of the resolution
`now` as the claim states. -/
theorem C5_counterexample :
    ¬ ((async_update hostC clibC zlibC5 cfgW SensorClass.time "sunrise" st0
          86399 86400).native_value =
        Option.map Value.time
          ((zlibC5.zmanim (make_zmanim cfgW (civilDate 86399))).lookup
            "sunrise")) := by
  decide

/-- C5 (amended): the plain daily-time table is built for the civil date of
a fresh clock reading taken at derivation time; whenever that reading falls
on the same civil date as the resolution `now` (every update that does not
straddle midnight), the table is today's and the sensor value is the table
entry named exactly by the sensor's key. -/
theorem C5_daily_time (host : Host) (clib : CalendarLib) (zlib : ZmanimLib)
    (cfg : Config) (key : String) (st : SensorState) (now now2 sunset t : Int)
    (hsun : host.get_astral_event_date (civilDate now) = some sunset)
    (hkey : key ∉ ["upcoming_shabbat_candle_lighting",
      "upcoming_candle_lighting", "upcoming_shabbat_havdalah",
      "upcoming_havdalah"])
    (hsame : civilDate now2 = civilDate now)
    (hl : (zlib.zmanim (make_zmanim cfg (civilDate now))).lookup key =
      some t) :
    (async_update host clib zlib cfg SensorClass.time key st
        now now2).native_value = some (Value.time t) := by
  simp only [List.mem_cons, List.mem_singleton, not_or] at hkey
  obtain ⟨h1, h2, h3, h4⟩ := hkey
  simp [async_update, JewishCalendarTimeSensor.get_state, hsun, h1, h2, h3,
    h4, hsame, hl]

/-- C5 witness: at `now = now2 = 86400` (civil day 1) the `sunrise` sensor
reads today's table entry. -/
theorem C5_witness :
    (async_update hostC clibC zlibC5 cfgW SensorClass.time "sunrise" st0
        86400 86400).native_value = some (Value.time 1) :=
  C5_daily_time hostC clibC zlibC5 cfgW "sunrise" st0 86400 86400 0 1 rfl
    (by decide) rfl rfl

/-- C6: when the sunset lookup for today's civil date returns null, the
update returns immediately and the sensor's previous value, attributes and
options are unchanged — for every sensor class and key, and independently of
the calendar and time libraries (so no derivation can have happened). -/
theorem C6_no_sunset (host : Host) (clib : CalendarLib) (zlib : ZmanimLib)
    (cfg : Config) (cls : SensorClass) (key : String) (st : SensorState)
    (now now2 : Int)
    (h : host.get_astral_event_date (civilDate now) = none) :
    async_update host clib zlib cfg cls key st now now2 = st := by
  simp [async_update, h]

/-- C6 witness: with a host whose sunset lookup fails, the `date` sensor's
state is untouched. -/
theorem C6_witness :
    async_update hostNone clibC zlibW cfgW SensorClass.info "date" st0 0 0 =
      st0 :=
  C6_no_sunset hostNone clibC zlibW cfgW SensorClass.info "date" st0 0 0 rfl

/-- C7 counterexample: a time sensor whose key matches no derivation branch
and is absent from the daily time table does not produce the value null —
the dict lookup raises (`none` in the exception model), refuting the claim
that every unmapped sensor key yields null. -/
theorem C7_counterexample :
    JewishCalendarTimeSensor.get_state zlibEmpty clibC cfgW "bogus_key"
        dC dC dC 0 = none ∧
    JewishCalendarTimeSensor.get_state zlibEmpty clibC cfgW "bogus_key"
        dC dC dC 0 ≠ some none := by
  decide

/-- C7 (amended): an info sensor whose key matches no derivation branch
yields the value null with attributes and options unchanged; a time sensor
whose key matches no upcoming branch and is absent from the daily time
table raises a `KeyError` from the dict lookup — aborting that sensor's
update and leaving its published state unchanged — rather than yielding
null. -/
theorem C7_unmapped (host : Host) (clib : CalendarLib) (zlib : ZmanimLib)
    (cfg : Config) (key : String) (attrs0 : List (String × Value))
    (options0 : List String) (daytime after_shkia after_tzais : HDate)
    (st : SensorState) (now now2 sunset : Int)
    (hinfo : key ∉ ["date", "weekly_portion", "holiday", "omer_count",
      "daf_yomi"])
    (htime : key ∉ ["upcoming_shabbat_candle_lighting",
      "upcoming_candle_lighting", "upcoming_shabbat_havdalah",
      "upcoming_havdalah"])
    (hmiss : (zlib.zmanim (make_zmanim cfg (civilDate now2))).lookup key =
      none) :
    JewishCalendarSensor.get_state clib cfg key attrs0 options0
        daytime after_shkia after_tzais = (none, attrs0, options0) ∧
    JewishCalendarTimeSensor.get_state zlib clib cfg key
        daytime after_shkia after_tzais now2 = none ∧
    (host.get_astral_event_date (civilDate now) = some sunset →
      async_update host clib zlib cfg SensorClass.time key st now now2 =
        st) := by
  simp only [List.mem_cons, List.mem_singleton, not_or] at hinfo htime
  obtain ⟨i1, i2, i3, i4, i5⟩ := hinfo
  obtain ⟨t1, t2, t3, t4⟩ := htime
  refine ⟨?_, ?_, fun hsun => ?_⟩
  · simp [JewishCalendarSensor.get_state, i1, i2, i3, i4, i5]
  · simp [JewishCalendarTimeSensor.get_state, t1, t2, t3, t4, hmiss]
  · simp [async_update, hsun, JewishCalendarTimeSensor.get_state, t1, t2,
      t3, t4, hmiss]

/-- C7 witness: the unmapped key `bogus` yields null on an info sensor,
raises on a time sensor with an empty table, and the time-sensor update
keeps the previous state. -/
theorem C7_witness :
    JewishCalendarSensor.get_state clibC cfgW "bogus" [] [] dC dC dC =
      (none, [], []) ∧
    JewishCalendarTimeSensor.get_state zlibEmpty clibC cfgW "bogus"
        dC dC dC 0 = none ∧
    (hostC.get_astral_event_date (civilDate 0) = some 0 →
      async_update hostC clibC zlibEmpty cfgW SensorClass.time "bogus" st0
        0 0 = st0) :=
  C7_unmapped hostC clibC zlibEmpty cfgW "bogus" [] [] dC dC dC st0 0 0 0
    (by decide) (by decide) rfl

/-- C8 counterexample: the static catalog holds 23 descriptors (5 info and
18 time sensors), refuting the claimed totals of 21 and 16. -/
theorem C8_counterexample :
    INFO_SENSORS.length + TIME_SENSORS.length = 23 ∧
    TIME_SENSORS.length = 18 ∧
    ¬ (INFO_SENSORS.length + TIME_SENSORS.length = 21 ∧
       TIME_SENSORS.length = 16) := by
  decide

/-- C8 (amended): the static catalog contains exactly 23 descriptors with
pairwise-distinct keys, partitioned into 5 info sensors and 18 time
sensors. -/
theorem C8_catalog :
    INFO_SENSORS.length = 5 ∧ TIME_SENSORS.length = 18 ∧
    INFO_SENSORS.length + TIME_SENSORS.length = 23 ∧
    ((INFO_SENSORS ++ TIME_SENSORS).map (fun d => d.key)).Nodup := by
  decide

/-- C9: on every update — whatever the resolved dates — the
`weekly_portion` options list is exactly the full Torah-portion table and
the `holiday` options list exactly the full holiday-description table (each
rendered per the configured language); both are independent of the current
date and time. -/
theorem C9_options_complete (clib : CalendarLib) (cfg : Config)
    (attrs0 : List (String × Value)) (options0 : List String)
    (daytime after_shkia after_tzais : HDate) :
    (JewishCalendarSensor.get_state clib cfg "weekly_portion" attrs0 options0
        daytime after_shkia after_tzais).2.2 =
      clib.PARASHAOT.map (fun p => if cfg.hebrew then p.hebrew
        else p.english) ∧
    (JewishCalendarSensor.get_state clib cfg "holiday" attrs0 options0
        daytime after_shkia after_tzais).2.2 =
      clib.HOLIDAYS.map (fun h => if cfg.hebrew then h.description.hebrew.long
        else h.description.english) :=
  ⟨rfl, rfl⟩

/-- For every key other than `date` and `holiday`, the info derivation
leaves the attribute state unchanged. -/
theorem info_get_state_attrs_frame (clib : CalendarLib) (cfg : Config)
    (key : String) (attrs0 : List (String × Value)) (options0 : List String)
    (daytime after_shkia after_tzais : HDate)
    (h1 : key ≠ "date") (h2 : key ≠ "holiday") :
    (JewishCalendarSensor.get_state clib cfg key attrs0 options0
        daytime after_shkia after_tzais).2.1 = attrs0 := by
  unfold JewishCalendarSensor.get_state
  rw [if_neg h1]
  by_cases hw : key = "weekly_portion"
  · rw [if_pos hw]
  · rw [if_neg hw, if_neg h2]
    by_cases ho : key = "omer_count"
    · rw [if_pos ho]
    · rw [if_neg ho]
      by_cases hf : key = "daf_yomi"
      · rw [if_pos hf]
      · rw [if_neg hf]

/-- C10: only the `date` and `holiday` sensors ever produce a non-empty
extra-state-attributes mapping: every update with any other key leaves the
attributes state unchanged (so a sensor initialised with empty attributes
keeps them empty forever), while successful `date` and `holiday` updates
always publish non-empty attributes. -/
theorem C10_attrs_frame (host : Host) (clib : CalendarLib) (zlib : ZmanimLib)
    (cfg : Config) (st : SensorState) (now now2 : Int) :
    (∀ cls key, key ∉ ["date", "holiday"] →
      (async_update host clib zlib cfg cls key st now now2).attrs =
        st.attrs) ∧
    (∀ sunset, host.get_astral_event_date (civilDate now) = some sunset →
      (async_update host clib zlib cfg SensorClass.info "date" st
          now now2).attrs ≠ [] ∧
      (async_update host clib zlib cfg SensorClass.info "holiday" st
          now now2).attrs ≠ []) := by
  constructor
  · intro cls key hkey
    simp only [List.mem_cons, List.mem_singleton, not_or] at hkey
    obtain ⟨k1, k2, -⟩ := hkey
    cases hsun : host.get_astral_event_date (civilDate now) with
    | none => simp [async_update, hsun]
    | some sunset =>
      cases cls with
      | info =>
        simp [async_update, hsun,
          info_get_state_attrs_frame clib cfg key st.attrs st.options
            (resolve zlib cfg now sunset).1 (resolve zlib cfg now sunset).2.1
            (resolve zlib cfg now sunset).2.2 k1 k2]
      | time =>
        simp only [async_update, hsun]
        cases JewishCalendarTimeSensor.get_state zlib clib cfg key
            (resolve zlib cfg now sunset).1 (resolve zlib cfg now sunset).2.1
            (resolve zlib cfg now sunset).2.2 now2 <;> rfl
  · intro sunset hsun
    constructor <;> simp [async_update, hsun, JewishCalendarSensor.get_state]

/-- C10 witness: an `omer_count` update keeps the (empty) attributes, and a
`date` update publishes non-empty attributes. -/
theorem C10_witness :
    (async_update hostC clibC zlibW cfgW SensorClass.info "omer_count" st0
        0 0).attrs = st0.attrs ∧
    (async_update hostC clibC zlibW cfgW SensorClass.info "date" st0
        0 0).attrs ≠ [] :=
  ⟨(C10_attrs_frame hostC clibC zlibW cfgW st0 0 0).1 SensorClass.info
      "omer_count" (by decide),
   ((C10_attrs_frame hostC clibC zlibW cfgW st0 0 0).2 0 rfl).1⟩
